import Mathlib

/-!
Shallow embedding of the concurrency/resilience core of the
`binance-connector` repository (src/error.rs, src/config.rs,
src/rate_limiter.rs, src/client.rs, src/websocket.rs), together with
theorems settling the frozen claims about it.

External crates (reqwest, serde_json, chrono, governor, tungstenite) are
boundaries: their outcomes enter the model as parameters or as abstract
outcome values, while every piece of control flow written in this
repository is translated function by function.
-/

/-- Classification carried by `reqwest::Error` as used by
`BinanceClient::request_with_retry` (`e.is_timeout()` / `e.is_connect()`). -/
inductive ReqwestError where
  | timeoutErr (msg : String)
  | connectErr (msg : String)
  | otherErr (msg : String)
deriving DecidableEq, Repr

def ReqwestError.isTimeout : ReqwestError → Bool
  | .timeoutErr _ => true
  | _ => false

def ReqwestError.isConnect : ReqwestError → Bool
  | .connectErr _ => true
  | _ => false

/-- The `Error` enum of src/error.rs. `DateTime` values are modelled as
Unix-epoch milliseconds (`Int`). -/
inductive Error where
  | httpError (e : ReqwestError)
  | apiError (code : Int) (msg : String)
  | rateLimitExceeded (retryAfterSeconds : Nat)
  | invalidSymbol (s : String)
  | invalidInterval (s : String)
  | timeoutAfter (secs : Nat)
  | deserializationError (msg : String)
  | configError (msg : String)
  | webSocketError (msg : String)
  | webSocketClosed
  | invalidDateRange (first last : String)
deriving DecidableEq, Repr

/-- `Error::is_retryable` from src/error.rs. -/
def Error.is_retryable : Error → Bool
  | .httpError _ => true
  | .timeoutAfter _ => true
  | .rateLimitExceeded _ => true
  | .webSocketClosed => true
  | _ => false

/-- `Error::is_rate_limit` from src/error.rs. -/
def Error.is_rate_limit : Error → Bool
  | .rateLimitExceeded _ => true
  | _ => false

/-- The fields of `BinanceConfig` (src/config.rs) that the core logic
reads; URL/auth fields are presentation-only and omitted. -/
structure BinanceConfig where
  timeout_seconds : Nat
  requests_per_minute : Nat
  enable_retries : Bool
  max_retries : Nat
deriving DecidableEq, Repr

/-- `BinanceConfig::validate` from src/config.rs. -/
def BinanceConfig.validate (c : BinanceConfig) : Except Error Unit :=
  if c.timeout_seconds = 0 then
    .error (.configError "Timeout must be greater than 0")
  else if c.requests_per_minute = 0 then
    .error (.configError "Requests per minute must be greater than 0")
  else
    .ok ()

/-- Outcome of a Rust constructor that can either produce a value,
return an error, or panic (`expect`). -/
inductive GateOutcome (α : Type) where
  | ok (g : α)
  | err (e : Error)
  | panicked (msg : String)
deriving DecidableEq, Repr

/-- The quota data `RateLimiter` (src/rate_limiter.rs) hands to the
external governor crate: cells per period, period length, burst. -/
structure RateLimiter where
  cellsPerPeriod : Nat
  periodSecs : Nat
  burst : Nat
deriving DecidableEq, Repr

/-- `RateLimiter::new` from src/rate_limiter.rs: zero rate hits
`NonZeroU32::new(0).expect(..)`, i.e. a panic, not an error return. -/
def RateLimiter.new (requests_per_minute : Nat) : GateOutcome RateLimiter :=
  let burst := max ((requests_per_minute + 59) / 60) 1
  if requests_per_minute = 0 then
    .panicked "requests_per_minute must be greater than 0"
  else if burst = 0 then
    .panicked "Burst must be greater than 0."
  else
    .ok { cellsPerPeriod := requests_per_minute, periodSecs := 60, burst := burst }

/-- `RateLimiter::per_second` from src/rate_limiter.rs (governor's
`Quota::per_second(n)` defaults the burst to `n`). -/
def RateLimiter.per_second (requests_per_second : Nat) : GateOutcome RateLimiter :=
  if requests_per_second = 0 then
    .panicked "requests_per_second must be greater than 0"
  else
    .ok { cellsPerPeriod := requests_per_second, periodSecs := 1,
          burst := requests_per_second }

/-- Modelled from the spec: the admission decision itself is made by the
external governor crate (GCRA), which is not part of src/. The spec
describes it as a token bucket: budget accrues with elapsed time at the
configured rate, capped at capacity (section 4.1 of the spec). State is
the available token count plus the last-update timestamp (seconds). -/
structure GateState where
  tokens : ℚ
  lastUpdate : ℚ
deriving DecidableEq, Repr

/-- Modelled from the spec: lazy accrual — budget notionally accrued
since the last update, capped at capacity. -/
def gateAccrue (capacity rate : ℚ) (s : GateState) (now : ℚ) : ℚ :=
  min capacity (s.tokens + (now - s.lastUpdate) * rate)

/-- Modelled from the spec: `try_acquire` performs the accrual
computation and refuses (without waiting) when less than one unit of
budget is available. -/
def gateTryAcquire (capacity rate : ℚ) (s : GateState) (now : ℚ) :
    Bool × GateState :=
  let avail := gateAccrue capacity rate s now
  if 1 ≤ avail then (true, ⟨avail - 1, now⟩) else (false, ⟨avail, now⟩)

/-- A freshly constructed gate starts with a full bucket at time 0. -/
def gateFull (capacity : ℚ) : GateState := ⟨capacity, 0⟩

/-- Run a sequence of `try_acquire` calls at the given timestamps,
returning each call's outcome and the final bucket state. -/
def gateRun (capacity rate : ℚ) (s : GateState) :
    List ℚ → List Bool × GateState
  | [] => ([], s)
  | t :: ts =>
    let step := gateTryAcquire capacity rate s t
    let rest := gateRun capacity rate step.2 ts
    (step.1 :: rest.1, rest.2)

/-- Trace of one `request_with_retry` run: final outcome, number of
underlying attempts actually made, and the backoff sleeps (ms) in order. -/
structure RetryTrace (ρ : Type) where
  result : Except Error ρ
  attemptsMade : Nat
  sleepsMs : List Nat

/-- The retry loop of `BinanceClient::request_with_retry`
(src/client.rs lines 379-401), unrolled on fuel. `f n` is the outcome of
the n-th fresh attempt; attempts count from 1 as in the source. The fuel
equals the remaining permitted attempts, so the 0 case is unreachable
from `BinanceClient.request_with_retry`. -/
def requestWithRetryGo {ρ : Type} (f : Nat → Except ReqwestError ρ)
    (maxAttempts : Nat) : Nat → Nat → RetryTrace ρ
  | 0, attempt => ⟨.error (.webSocketError "unreachable"), attempt - 1, []⟩
  | fuel + 1, attempt =>
    match f attempt with
    | .ok r => ⟨.ok r, attempt, []⟩
    | .error e =>
      if maxAttempts ≤ attempt then
        ⟨.error (.httpError e), attempt, []⟩
      else if e.isTimeout then
        let rest := requestWithRetryGo f maxAttempts fuel (attempt + 1)
        ⟨rest.result, rest.attemptsMade, (100 * 2 ^ (attempt - 1)) :: rest.sleepsMs⟩
      else if e.isConnect then
        let rest := requestWithRetryGo f maxAttempts fuel (attempt + 1)
        ⟨rest.result, rest.attemptsMade, (500 * 2 ^ (attempt - 1)) :: rest.sleepsMs⟩
      else
        ⟨.error (.httpError e), attempt, []⟩

/-- `BinanceClient::request_with_retry` (src/client.rs lines 367-402):
with retries disabled a single attempt's outcome is surfaced
unconditionally; otherwise the loop runs with
`max_attempts = max_retries + 1`. -/
def BinanceClient.request_with_retry {ρ : Type} (enable_retries : Bool)
    (max_retries : Nat) (f : Nat → Except ReqwestError ρ) : RetryTrace ρ :=
  if enable_retries then
    requestWithRetryGo f (max_retries + 1) (max_retries + 1) 1
  else
    match f 1 with
    | .ok r => ⟨.ok r, 1, []⟩
    | .error e => ⟨.error (.httpError e), 1, []⟩

/-- `str::parse::<u64>` (Rust `u64::from_str`): an optional leading `+`
followed by at least one ASCII digit, rejecting values that overflow
64 bits. -/
def parseU64 (s : String) : Option Nat :=
  let digits := match s.data with
    | '+' :: rest => rest
    | chars => chars
  if digits = [] then none
  else if digits.all Char.isDigit then
    let v := digits.foldl (fun a c => a * 10 + (c.toNat - 48)) 0
    if v < 2 ^ 64 then some v else none
  else none

/-- Abstraction of a `reqwest::Response` as `handle_response` inspects
it: HTTP status, the `Retry-After` header (`none` = absent,
`some none` = present but `to_str` fails, `some (some s)` = the header
string), the body parsed as the caller's type, the body parsed as a
Binance error object, and the raw body text. -/
structure HttpResponseModel (τ : Type) where
  status : Nat
  retryAfterHeader : Option (Option String)
  jsonBody : Except String τ
  errorBody : Option (Int × String)
  textBody : Option String

/-- `BinanceClient::handle_response` (src/client.rs lines 405-456). -/
def BinanceClient.handle_response {τ : Type} (r : HttpResponseModel τ) :
    Except Error τ :=
  if r.status = 200 then
    match r.jsonBody with
    | .ok t => .ok t
    | .error m => .error (.apiError 0 ("Failed to parse response: " ++ m))
  else if r.status = 400 then
    match r.errorBody with
    | some cm => .error (.apiError cm.1 cm.2)
    | none => .error (.apiError 400 "Bad request")
  else if r.status = 429 then
    .error (.rateLimitExceeded ((r.retryAfterHeader.bind id).bind parseU64 |>.getD 60))
  else
    .error (.apiError (Int.ofNat r.status) (r.textBody.getD ""))

/-- The state a constructed `BinanceClient` owns (src/client.rs). -/
structure BinanceClientModel where
  config : BinanceConfig
  rate_limiter : RateLimiter
deriving DecidableEq, Repr

/-- `BinanceClient::new` (src/client.rs lines 24-39): validate the
config, build the HTTP client (external; its outcome is a parameter),
then construct the rate limiter. -/
def BinanceClient.new (httpBuild : Except ReqwestError Unit)
    (config : BinanceConfig) : GateOutcome BinanceClientModel :=
  match config.validate with
  | .error e => .err e
  | .ok _ =>
    match httpBuild with
    | .error e => .err (.httpError e)
    | .ok _ =>
      match RateLimiter.new config.requests_per_minute with
      | .panicked m => .panicked m
      | .err e => .err e
      | .ok g => .ok { config := config, rate_limiter := g }

/-- The `WsTickerData` payload shape (src/websocket.rs lines 617-657):
numeric fields arrive as strings, timestamps and ids as integers. -/
structure WsTickerData where
  event_type : String
  symbol : String
  price_change : String
  price_change_percent : String
  weighted_avg_price : String
  prev_close : String
  last_price : String
  bid_price : String
  ask_price : String
  open_price : String
  high_price : String
  low_price : String
  volume : String
  quote_volume : String
  open_time : Int
  close_time : Int
  first_trade_id : Int
  last_trade_id : Int
  trade_count : Int
deriving DecidableEq, Repr

/-- The `Ticker24h` domain record (src/models.rs lines 34-53); `f64`
fields are modelled as `ℚ` and `DateTime<Utc>` as epoch milliseconds. -/
structure Ticker24h where
  symbol : String
  price_change : ℚ
  price_change_percent : ℚ
  weighted_avg_price : ℚ
  prev_close_price : ℚ
  last_price : ℚ
  bid_price : ℚ
  ask_price : ℚ
  open_price : ℚ
  high_price : ℚ
  low_price : ℚ
  volume : ℚ
  quote_volume : ℚ
  open_time : Int
  close_time : Int
  first_id : Int
  last_id : Int
  count : Int
deriving DecidableEq, Repr

/-- The `Trade` domain record (src/models.rs lines 83-91). -/
structure Trade where
  id : Int
  symbol : String
  price : ℚ
  quantity : ℚ
  quote_quantity : ℚ
  time : Int
  is_buyer_maker : Bool
deriving DecidableEq, Repr

/-- Boundary functions from external crates used by the shape mapping:
`str::parse::<f64>` and chrono's `DateTime::from_timestamp_millis`
(`none` = parse failure / out-of-range timestamp). -/
structure Externals where
  parseF64 : String → Option ℚ
  fromTimestampMillis : Int → Option Int

/-- The record `WsTickerData::to_ticker24h` builds: every
`parse().unwrap_or(0.0)` defaults a failed parse to 0, and every
`from_timestamp_millis(..).unwrap_or_default()` defaults an out-of-range
timestamp to the epoch. -/
def WsTickerData.ticker24hOf (ext : Externals) (d : WsTickerData) : Ticker24h :=
  { symbol := d.symbol
    price_change := (ext.parseF64 d.price_change).getD 0
    price_change_percent := (ext.parseF64 d.price_change_percent).getD 0
    weighted_avg_price := (ext.parseF64 d.weighted_avg_price).getD 0
    prev_close_price := (ext.parseF64 d.prev_close).getD 0
    last_price := (ext.parseF64 d.last_price).getD 0
    bid_price := (ext.parseF64 d.bid_price).getD 0
    ask_price := (ext.parseF64 d.ask_price).getD 0
    open_price := (ext.parseF64 d.open_price).getD 0
    high_price := (ext.parseF64 d.high_price).getD 0
    low_price := (ext.parseF64 d.low_price).getD 0
    volume := (ext.parseF64 d.volume).getD 0
    quote_volume := (ext.parseF64 d.quote_volume).getD 0
    open_time := (ext.fromTimestampMillis d.open_time).getD 0
    close_time := (ext.fromTimestampMillis d.close_time).getD 0
    first_id := d.first_trade_id
    last_id := d.last_trade_id
    count := d.trade_count }

/-- `WsTickerData::to_ticker24h` (src/websocket.rs lines 659-682): the
function is total and always returns `Ok`. -/
def WsTickerData.to_ticker24h (ext : Externals) (d : WsTickerData) :
    Except Error Ticker24h :=
  .ok (d.ticker24hOf ext)

/-- The `WsTradeData` payload shape (src/websocket.rs lines 742-756). -/
structure WsTradeData where
  event_type : String
  trade_id : Int
  price : String
  quantity : String
  trade_time : Int
  is_buyer_maker : Bool
deriving DecidableEq, Repr

/-- `WsTradeData::to_trade` (src/websocket.rs lines 758-773): total,
always `Ok`, with failed numeric parses defaulted to 0. -/
def WsTradeData.to_trade (ext : Externals) (d : WsTradeData)
    (symbol : String) : Except Error Trade :=
  let price := (ext.parseF64 d.price).getD 0
  let quantity := (ext.parseF64 d.quantity).getD 0
  .ok { id := d.trade_id
        symbol := symbol
        price := price
        quantity := quantity
        quote_quantity := price * quantity
        time := (ext.fromTimestampMillis d.trade_time).getD 0
        is_buyer_maker := d.is_buyer_maker }

/-- One inbound item delivered by `ws_stream.next()`: a text frame, a
ping, a close frame, a read error, or a frame kind the handler ignores
(binary, pong, raw frames). The list ends when the stream ends. -/
inductive WsItem where
  | text (s : String)
  | ping (payload : String)
  | close
  | readErr (msg : String)
  | other
deriving DecidableEq, Repr

/-- One entry pushed onto the subscription's output channel: a decoded
event or an error value. -/
inductive Envelope where
  | ok (t : Ticker24h)
  | err (e : Error)
deriving DecidableEq, Repr

/-- Trace of one `handle_ticker_messages` run: envelopes delivered to
the channel, frames consumed from the transport, and the handler's
return value. -/
structure HandlerRun where
  sent : List Envelope
  framesRead : Nat
  result : Except Error Unit

/-- Ambient parameters of one ticker subscription: the external
`serde_json::from_str::<WsTickerData>` decoder, the numeric boundary
functions, whether the consumer still holds the channel receiver (sends
succeed iff it does), and whether outbound pong sends succeed. -/
structure StreamEnv where
  decode : String → Except String WsTickerData
  ext : Externals
  chanOpen : Bool
  pongOk : Bool

/-- `BinanceWebSocket::handle_ticker_messages` (src/websocket.rs lines
277-312). A successful decode is pushed; a failed push (consumer gone)
returns `Ok(())` at once. A failed decode pushes a
`DeserializationError` envelope with the send result ignored, and the
loop continues either way. A ping is answered with a pong (a failed pong
send aborts with `WebSocketError`); a close frame or read error returns
the corresponding error; stream end returns `WebSocketClosed`. -/
def handle_ticker_messages (env : StreamEnv) : List WsItem → HandlerRun
  | [] => ⟨[], 0, .error .webSocketClosed⟩
  | .text s :: rest =>
    match env.decode s with
    | .ok data =>
      match data.to_ticker24h env.ext with
      | .error e => ⟨[], 1, .error e⟩
      | .ok ticker =>
        if env.chanOpen then
          let r := handle_ticker_messages env rest
          ⟨.ok ticker :: r.sent, r.framesRead + 1, r.result⟩
        else
          ⟨[], 1, .ok ()⟩
    | .error e =>
      let r := handle_ticker_messages env rest
      ⟨(if env.chanOpen then [Envelope.err (.deserializationError e)] else [])
         ++ r.sent,
       r.framesRead + 1, r.result⟩
  | .ping _ :: rest =>
    if env.pongOk then
      let r := handle_ticker_messages env rest
      ⟨r.sent, r.framesRead + 1, r.result⟩
    else
      ⟨[], 1, .error (.webSocketError "pong send failed")⟩
  | .close :: _ => ⟨[], 1, .error .webSocketClosed⟩
  | .readErr m :: _ => ⟨[], 1, .error (.webSocketError m)⟩
  | .other :: rest =>
    let r := handle_ticker_messages env rest
    ⟨r.sent, r.framesRead + 1, r.result⟩

/-- Trace of `connect_with_retry`: the result, how many connection
attempts were actually made, and the backoff sleeps (seconds) in order. -/
structure ConnectTrace (τ : Type) where
  result : Except Error τ
  attemptsMade : Nat
  sleepsSecs : List Nat

/-- The loop of `BinanceWebSocket::connect_with_retry` (src/websocket.rs
lines 593-609), unrolled on fuel; `connect n` is the outcome of the n-th
`connect_async` call and attempts count from 1 as in the source. The
fuel equals the remaining permitted attempts, so the 0 case is
unreachable from `connect_with_retry`. -/
def connectWithRetryGo {τ : Type} (connect : Nat → Except String τ) :
    Nat → Nat → ConnectTrace τ
  | 0, attempt => ⟨.error (.webSocketError "unreachable"), attempt - 1, []⟩
  | fuel + 1, attempt =>
    match connect attempt with
    | .ok t => ⟨.ok t, attempt, []⟩
    | .error e =>
      if 5 ≤ attempt then
        ⟨.error (.webSocketError
            ("Failed to connect after 5 attempts: " ++ e)), attempt, []⟩
      else
        let r := connectWithRetryGo connect fuel (attempt + 1)
        ⟨r.result, r.attemptsMade, 2 ^ (attempt - 1) :: r.sleepsSecs⟩

/-- `BinanceWebSocket::connect_with_retry` (src/websocket.rs lines
589-610) with its `max_retries = 5` literal. -/
def connect_with_retry {τ : Type} (connect : Nat → Except String τ) :
    ConnectTrace τ :=
  connectWithRetryGo connect 5 1

/-- Outcome of one reconnect cycle's connection phase: either
`connect_with_retry` produced a transport that then delivered the given
frames, or it failed with an error. -/
inductive ConnOutcome where
  | conn (frames : List WsItem)
  | connFail (e : Error)

/-- Observable trace of one iteration of the outer reconnect loop. -/
structure CycleTrace where
  connectAttempted : Bool
  sent : List Envelope
  framesRead : Nat
  sleepSecs : Nat

/-- A `tx.send` whose failure the source ignores (`let _ = ..`):
delivers the envelope only while the consumer holds the receiver. -/
def sendIfOpen (chanOpen : Bool) (e : Envelope) : List Envelope :=
  if chanOpen then [e] else []

/-- One iteration of the outer loop of
`BinanceWebSocket::ticker_stream_handler` (src/websocket.rs lines
260-274): on a connection, run the read loop and push any `Err` it
returns; on a connect failure, push the error; then sleep the fixed
5 seconds. The loop body has no break or return on any path. -/
def tickerCycle (env : StreamEnv) : ConnOutcome → CycleTrace
  | .connFail e => ⟨true, sendIfOpen env.chanOpen (.err e), 0, 5⟩
  | .conn frames =>
    let r := handle_ticker_messages env frames
    match r.result with
    | .ok _ => ⟨true, r.sent, r.framesRead, 5⟩
    | .error e =>
      ⟨true, r.sent ++ sendIfOpen env.chanOpen (.err e), r.framesRead, 5⟩

/-- `BinanceWebSocket::ticker_stream_handler` (src/websocket.rs lines
255-275): an unconditional `loop` around `tickerCycle` — every scheduled
cycle runs, none is skipped, because no path leaves the loop. -/
def ticker_stream_handler (env : StreamEnv) (cycles : List ConnOutcome) :
    List CycleTrace :=
  cycles.map (tickerCycle env)

/-- Everything the consumer's channel receives across the given cycles,
in order. -/
def channelContents : List CycleTrace → List Envelope
  | [] => []
  | c :: cs => c.sent ++ channelContents cs

/-- Stand-in for Rust's `f64` parser on the concrete inputs the
witnesses use: strings of ASCII digits parse to the same value in both,
and non-numeric strings fail in both. -/
def simpleParseNum (s : String) : Option ℚ :=
  if s.data ≠ [] ∧ s.data.all Char.isDigit then
    some ((s.data.foldl (fun a c => a * 10 + (c.toNat - 48)) 0 : ℕ) : ℚ)
  else none

/-- Concrete boundary functions for witnesses: the digit-string parser
and an identity timestamp conversion (chrono accepts every timestamp the
witnesses mention). -/
def demoExt : Externals :=
  { parseF64 := simpleParseNum, fromTimestampMillis := fun m => some m }

/-- A well-formed ticker payload used by witnesses. -/
def demoData : WsTickerData :=
  { event_type := "24hrTicker", symbol := "BTCUSDT"
    price_change := "1", price_change_percent := "2"
    weighted_avg_price := "3", prev_close := "4", last_price := "5"
    bid_price := "6", ask_price := "7", open_price := "8"
    high_price := "9", low_price := "1", volume := "2", quote_volume := "3"
    open_time := 0, close_time := 0
    first_trade_id := 10, last_trade_id := 20, trade_count := 11 }

/-- Concrete decoder for witnesses: the frame `"bad"` is malformed, any
other frame decodes to `demoData` tagged with the frame text. -/
def demoDecode (s : String) : Except String WsTickerData :=
  if s = "bad" then .error "expected value" else .ok { demoData with symbol := s }

/-- Subscription whose consumer still holds the receiver. -/
def demoOpenEnv : StreamEnv :=
  { decode := demoDecode, ext := demoExt, chanOpen := true, pongOk := true }

/-- Subscription whose consumer has dropped the receiver. -/
def demoClosedEnv : StreamEnv :=
  { decode := demoDecode, ext := demoExt, chanOpen := false, pongOk := true }

/-- Is an envelope a decoded event (as opposed to an error value)? -/
def Envelope.isEvent : Envelope → Bool
  | .ok _ => true
  | .err _ => false

/-- In any reachable configuration of the connect loop (remaining fuel
plus current attempt number bounded as from the entry point), at most 5
attempts are ever made. -/
theorem connectWithRetryGo_attempts_le {τ : Type}
    (connect : Nat → Except String τ) :
    ∀ fuel attempt, attempt + fuel ≤ 6 →
      (connectWithRetryGo connect fuel attempt).attemptsMade ≤ 5 := by
  intro fuel
  induction fuel with
  | zero =>
    intro attempt h
    simp only [connectWithRetryGo]
    omega
  | succ k ih =>
    intro attempt h
    simp only [connectWithRetryGo]
    cases hc : connect attempt with
    | ok t => simp only; omega
    | error e =>
      by_cases h5 : 5 ≤ attempt
      · simp only [h5, if_true]
        omega
      · simp only [h5, if_false]
        exact ih (attempt + 1) (by omega)

/-- C3: in the retry executor, a timeout failure at attempt n below the
ceiling is followed by a sleep of 100ms * 2^(n-1), a connect failure by
500ms * 2^(n-1), and a fatal failure stops the loop at once with the
underlying error and no sleep; an operation whose first attempt fails
fatally makes exactly 1 attempt. -/
theorem c3_retry_backoff :
    (∀ (ρ : Type) (f : Nat → Except ReqwestError ρ) (maxA n fuel : Nat)
        (m : String),
        n < maxA → f n = .error (.timeoutErr m) →
        (requestWithRetryGo f maxA (fuel + 1) n).sleepsMs.head? =
          some (100 * 2 ^ (n - 1)))
  ∧ (∀ (ρ : Type) (f : Nat → Except ReqwestError ρ) (maxA n fuel : Nat)
        (m : String),
        n < maxA → f n = .error (.connectErr m) →
        (requestWithRetryGo f maxA (fuel + 1) n).sleepsMs.head? =
          some (500 * 2 ^ (n - 1)))
  ∧ (∀ (ρ : Type) (f : Nat → Except ReqwestError ρ) (maxA n fuel : Nat)
        (m : String),
        f n = .error (.otherErr m) →
        requestWithRetryGo f maxA (fuel + 1) n =
          ⟨.error (.httpError (.otherErr m)), n, []⟩)
  ∧ (∀ (ρ : Type) (f : Nat → Except ReqwestError ρ) (max_retries : Nat)
        (m : String),
        f 1 = .error (.otherErr m) →
        BinanceClient.request_with_retry true max_retries f =
          ⟨.error (.httpError (.otherErr m)), 1, []⟩) := by
  refine ⟨?_, ?_, ?_, ?_⟩
  · intro ρ f maxA n fuel m hlt hf
    have hle : ¬ maxA ≤ n := by omega
    simp [requestWithRetryGo, hf, hle, ReqwestError.isTimeout]
  · intro ρ f maxA n fuel m hlt hf
    have hle : ¬ maxA ≤ n := by omega
    simp [requestWithRetryGo, hf, hle, ReqwestError.isTimeout,
      ReqwestError.isConnect]
  · intro ρ f maxA n fuel m hf
    by_cases hle : maxA ≤ n
    · simp [requestWithRetryGo, hf, hle]
    · simp [requestWithRetryGo, hf, hle, ReqwestError.isTimeout,
        ReqwestError.isConnect]
  · intro ρ f max_retries m hf
    by_cases hle : max_retries + 1 ≤ 1
    · simp [BinanceClient.request_with_retry, requestWithRetryGo, hf, hle]
    · simp [BinanceClient.request_with_retry, requestWithRetryGo, hf, hle,
        ReqwestError.isTimeout, ReqwestError.isConnect]

/-- Witness for C3 at a concrete always-fatally-failing operation. -/
theorem c3_retry_backoff_witness :
    ((fun _ : Nat => (.error (.otherErr "boom") : Except ReqwestError Unit)) 1 =
        .error (.otherErr "boom"))
  ∧ BinanceClient.request_with_retry true 3
      (fun _ : Nat => (.error (.otherErr "boom") : Except ReqwestError Unit)) =
      ⟨.error (.httpError (.otherErr "boom")), 1, []⟩ :=
  ⟨rfl, c3_retry_backoff.2.2.2 Unit (fun _ => .error (.otherErr "boom")) 3
    "boom" rfl⟩

/-- C6: the connect procedure makes at most 5 attempts; when every
attempt fails it makes exactly 5, sleeping 2^(attempt-1) seconds
(1, 2, 4, 8) after each failed attempt below the ceiling, and surfaces a
connect error; the outer reconnect loop then sleeps a fixed 5 seconds in
every cycle. -/
theorem c6_connect_retry :
    (∀ (τ : Type) (connect : Nat → Except String τ),
        (connect_with_retry connect).attemptsMade ≤ 5)
  ∧ (∀ (τ : Type) (connect : Nat → Except String τ) (e : Nat → String),
        (∀ n, connect n = .error (e n)) →
        connect_with_retry connect =
          ⟨.error (.webSocketError
              ("Failed to connect after 5 attempts: " ++ e 5)),
           5, [1, 2, 4, 8]⟩)
  ∧ (∀ (env : StreamEnv) (oc : ConnOutcome),
        (tickerCycle env oc).sleepSecs = 5) := by
  refine ⟨?_, ?_, ?_⟩
  · intro τ connect
    exact connectWithRetryGo_attempts_le connect 5 1 (by omega)
  · intro τ connect e h
    simp [connect_with_retry, connectWithRetryGo, h 1, h 2, h 3, h 4, h 5]
  · intro env oc
    cases oc with
    | connFail e => rfl
    | conn frames =>
      cases hr : (handle_ticker_messages env frames).result <;>
        simp [tickerCycle, hr]

/-- Witness for C6 at a connection target that always refuses. -/
theorem c6_witness :
    ((fun _ : Nat => (.error "refused" : Except String Unit)) 1 =
        .error "refused")
  ∧ connect_with_retry (fun _ : Nat => (.error "refused" : Except String Unit)) =
      ⟨.error (.webSocketError
          ("Failed to connect after 5 attempts: " ++ "refused")),
       5, [1, 2, 4, 8]⟩ :=
  ⟨rfl, c6_connect_retry.2.1 Unit (fun _ => .error "refused")
    (fun _ => "refused") (fun _ => rfl)⟩

/-- C8: a 429 response is turned into `RateLimitExceeded{retry_after}`
by `handle_response`, outside the retry loop; the retry executor returns
every successfully transported response (whatever its HTTP status) after
exactly one attempt with no sleep — it never classifies or retries
HTTP-level throttling. -/
theorem c8_rate_limit_surfaced :
    (∀ (τ : Type) (r : HttpResponseModel τ), r.status = 429 →
        BinanceClient.handle_response r =
          .error (.rateLimitExceeded
            (((r.retryAfterHeader.bind id).bind parseU64).getD 60)))
  ∧ (∀ (ρ : Type) (enable_retries : Bool) (max_retries : Nat)
        (f : Nat → Except ReqwestError ρ) (resp : ρ),
        f 1 = .ok resp →
        BinanceClient.request_with_retry enable_retries max_retries f =
          ⟨.ok resp, 1, []⟩) := by
  refine ⟨?_, ?_⟩
  · intro τ r h
    simp [BinanceClient.handle_response, h]
  · intro ρ enable_retries max_retries f resp hf
    cases enable_retries with
    | false => simp [BinanceClient.request_with_retry, hf]
    | true => simp [BinanceClient.request_with_retry, requestWithRetryGo, hf]

/-- A concrete 429 response without a Retry-After header. -/
def demo429 : HttpResponseModel Unit :=
  { status := 429, retryAfterHeader := none, jsonBody := .error "unused",
    errorBody := none, textBody := none }

/-- Witness for C8 at the concrete 429 response. -/
theorem c8_witness :
    demo429.status = 429
  ∧ BinanceClient.handle_response demo429 = .error (.rateLimitExceeded 60)
  ∧ BinanceClient.request_with_retry true 3
      (fun _ : Nat => (.ok demo429 : Except ReqwestError (HttpResponseModel Unit))) =
      ⟨.ok demo429, 1, []⟩ :=
  ⟨rfl, c8_rate_limit_surfaced.1 Unit demo429 rfl,
   c8_rate_limit_surfaced.2 (HttpResponseModel Unit) true 3
     (fun _ => .ok demo429) demo429 rfl⟩

/-- C10: on a 429 response, an absent Retry-After header, a header whose
bytes are not a valid string, or a header string that does not parse as
an unsigned 64-bit integer all yield retry_after_seconds = 60, while a
header that parses as n yields retry_after_seconds = n. -/
theorem c10_retry_after :
    (∀ (τ : Type) (r : HttpResponseModel τ), r.status = 429 →
        r.retryAfterHeader = none →
        BinanceClient.handle_response r = .error (.rateLimitExceeded 60))
  ∧ (∀ (τ : Type) (r : HttpResponseModel τ), r.status = 429 →
        r.retryAfterHeader = some none →
        BinanceClient.handle_response r = .error (.rateLimitExceeded 60))
  ∧ (∀ (τ : Type) (r : HttpResponseModel τ) (s : String), r.status = 429 →
        r.retryAfterHeader = some (some s) → parseU64 s = none →
        BinanceClient.handle_response r = .error (.rateLimitExceeded 60))
  ∧ (∀ (τ : Type) (r : HttpResponseModel τ) (s : String) (n : Nat),
        r.status = 429 → r.retryAfterHeader = some (some s) →
        parseU64 s = some n →
        BinanceClient.handle_response r = .error (.rateLimitExceeded n)) := by
  refine ⟨?_, ?_, ?_, ?_⟩
  · intro τ r h hh
    simp [BinanceClient.handle_response, h, hh]
  · intro τ r h hh
    simp [BinanceClient.handle_response, h, hh]
  · intro τ r s h hh hp
    simp [BinanceClient.handle_response, h, hh, hp]
  · intro τ r s n h hh hp
    simp [BinanceClient.handle_response, h, hh, hp]

/-- A concrete 429 response carrying `Retry-After: 7`. -/
def demo429WithHeader : HttpResponseModel Unit :=
  { demo429 with retryAfterHeader := some (some "7") }

/-- Witness for C10 at the concrete header value "7". -/
theorem c10_witness :
    demo429WithHeader.status = 429
  ∧ demo429WithHeader.retryAfterHeader = some (some "7")
  ∧ parseU64 "7" = some 7
  ∧ BinanceClient.handle_response demo429WithHeader =
      .error (.rateLimitExceeded 7) := by
  refine ⟨rfl, rfl, by decide, ?_⟩
  exact c10_retry_after.2.2.2 Unit demo429WithHeader "7" 7 rfl rfl (by decide)

/-- `RateLimiter::try_acquire` (src/rate_limiter.rs lines 109-113):
`self.governor.check().is_ok().then_some(permit)` — the admission
decision is the governor GCRA (spec-modelled as `gateTryAcquire`), and
the wrapper maps it to `Some(permit)` on admission and `None` on
refusal; its return type carries no error value of any kind, so nothing
at call time can surface a configuration failure. -/
def RateLimiter.try_acquire (capacity rate : ℚ) (s : GateState) (now : ℚ) :
    Option Unit × GateState :=
  let step := gateTryAcquire capacity rate s now
  (if step.1 then some () else none, step.2)

/-- The call-time guard of `BinanceClient::get_klines` (src/client.rs
lines 143-147): a limit above 1000 returns a `ConfigError` to the caller
at call time, before any request is issued; otherwise the call proceeds
with the downstream request pipeline (rate limiter, retry executor,
response handling), whose outcome enters as a parameter. -/
def BinanceClient.get_klines {κ : Type} (limit : Nat)
    (downstream : Except Error κ) : Except Error κ :=
  if 1000 < limit then
    .error (.configError
      ("Limit " ++ toString limit ++ " exceeds maximum of 1000"))
  else downstream

/-- C9 counterexample: two parts of the claim fail on the code.
Constructing the gate alone with a zero rate does not return a typed
ConfigError — `RateLimiter::new(0)` panics through
`NonZeroU32::new(0).expect(..)`; and a one-shot operation can fail for
configuration reasons at call time — `get_klines` with limit 1001
returns a `ConfigError` to the caller before issuing any request. -/
theorem c9_counterexample :
    RateLimiter.new 0 = .panicked "requests_per_minute must be greater than 0"
  ∧ (∀ e : Error, RateLimiter.new 0 ≠ GateOutcome.err e)
  ∧ BinanceClient.get_klines 1001 (.ok () : Except Error Unit) =
      .error (.configError "Limit 1001 exceeds maximum of 1000") := by
  refine ⟨rfl, ?_, rfl⟩
  intro e h
  simp [RateLimiter.new] at h

/-- C9 amended: a zero timeout or zero rate makes client construction
return a `ConfigError` at construction time and no client is produced,
while the standalone gate constructor instead panics on a zero rate (its
documented behavior) and succeeds on every nonzero rate. At call time,
`try_acquire` has no error outcome at all — it returns a permit exactly
when at least one unit of budget has accrued, refusing only for budget
reasons — and a one-shot call with an in-range argument passes straight
to the request pipeline; but the one-shot `get_klines` does perform a
call-time parameter check, returning a `ConfigError` for any limit above
1000, so one-shot operations can fail for configuration reasons at call
time. -/
theorem c9_amended :
    (∀ (hb : Except ReqwestError Unit) (cfg : BinanceConfig),
        cfg.timeout_seconds = 0 →
        BinanceClient.new hb cfg =
          .err (.configError "Timeout must be greater than 0"))
  ∧ (∀ (hb : Except ReqwestError Unit) (cfg : BinanceConfig),
        cfg.timeout_seconds ≠ 0 → cfg.requests_per_minute = 0 →
        BinanceClient.new hb cfg =
          .err (.configError "Requests per minute must be greater than 0"))
  ∧ RateLimiter.new 0 = .panicked "requests_per_minute must be greater than 0"
  ∧ (∀ rpm : Nat, rpm ≠ 0 →
        RateLimiter.new rpm =
          .ok { cellsPerPeriod := rpm, periodSecs := 60,
                burst := max ((rpm + 59) / 60) 1 })
  ∧ (∀ (capacity rate : ℚ) (s : GateState) (now : ℚ),
        (RateLimiter.try_acquire capacity rate s now).1 = some () ↔
          1 ≤ gateAccrue capacity rate s now)
  ∧ (∀ (κ : Type) (limit : Nat) (downstream : Except Error κ),
        limit ≤ 1000 →
        BinanceClient.get_klines limit downstream = downstream)
  ∧ (∀ (κ : Type) (limit : Nat) (downstream : Except Error κ),
        1000 < limit →
        BinanceClient.get_klines limit downstream =
          .error (.configError
            ("Limit " ++ toString limit ++ " exceeds maximum of 1000"))) := by
  refine ⟨?_, ?_, rfl, ?_, ?_, ?_, ?_⟩
  · intro hb cfg h
    simp [BinanceClient.new, BinanceConfig.validate, h]
  · intro hb cfg h h0
    simp [BinanceClient.new, BinanceConfig.validate, h, h0]
  · intro rpm h
    have hb : max ((rpm + 59) / 60) 1 ≠ 0 := by
      have := Nat.le_max_right ((rpm + 59) / 60) 1
      omega
    simp [RateLimiter.new, h, hb]
  · intro capacity rate s now
    by_cases h : 1 ≤ gateAccrue capacity rate s now
    · simp [RateLimiter.try_acquire, gateTryAcquire, h]
    · simp [RateLimiter.try_acquire, gateTryAcquire, h]
  · intro κ limit downstream h
    simp [BinanceClient.get_klines, Nat.not_lt.mpr h]
  · intro κ limit downstream h
    simp [BinanceClient.get_klines, h]

/-- Witness for C9 (amended): a zero-timeout config at construction
time, plus call-time instances — an in-range one-shot call passing
through unchanged and a try_acquire permit granted from a full bucket. -/
theorem c9_amended_witness :
    (({ timeout_seconds := 0, requests_per_minute := 1200,
        enable_retries := true, max_retries := 3 } : BinanceConfig).timeout_seconds
      = 0)
  ∧ BinanceClient.new (.ok ())
      { timeout_seconds := 0, requests_per_minute := 1200,
        enable_retries := true, max_retries := 3 } =
      .err (.configError "Timeout must be greater than 0")
  ∧ (500 : Nat) ≤ 1000
  ∧ BinanceClient.get_klines 500 (.ok () : Except Error Unit) = .ok ()
  ∧ (1 : ℚ) ≤ gateAccrue 5 5 (gateFull 5) 0
  ∧ (RateLimiter.try_acquire 5 5 (gateFull 5) 0).1 = some () := by
  have hacc : (1 : ℚ) ≤ gateAccrue 5 5 (gateFull 5) 0 := by
    norm_num [gateAccrue, gateFull]
  refine ⟨rfl,
    c9_amended.1 (.ok ())
      { timeout_seconds := 0, requests_per_minute := 1200,
        enable_retries := true, max_retries := 3 } rfl,
    by norm_num,
    c9_amended.2.2.2.2.2.1 Unit 500 (.ok ()) (by norm_num),
    hacc,
    (c9_amended.2.2.2.2.1 5 5 (gateFull 5) 0).mpr hacc⟩

/-- C4: for the admission gate with capacity 5 and rate 5 permits per
second, starting from a full bucket, 5 immediate try_acquire calls
succeed, the 6th immediate call fails, and any further call at least
200ms (1/5 s) later succeeds. -/
theorem c4_admission_gate :
    gateRun 5 5 (gateFull 5) [0, 0, 0, 0, 0, 0] =
      ([true, true, true, true, true, false], ⟨0, 0⟩)
  ∧ (∀ t : ℚ, 1 / 5 ≤ t →
      (gateTryAcquire 5 5 (gateRun 5 5 (gateFull 5) [0, 0, 0, 0, 0, 0]).2 t).1 =
        true) := by
  have h : gateRun 5 5 (gateFull 5) [0, 0, 0, 0, 0, 0] =
      ([true, true, true, true, true, false], ⟨0, 0⟩) := by
    norm_num [gateRun, gateTryAcquire, gateAccrue, gateFull, min_def]
  refine ⟨h, ?_⟩
  intro t ht
  rw [h]
  have havail : (1 : ℚ) ≤ t * 5 := by nlinarith
  simp [gateTryAcquire, gateAccrue, havail]

/-- Witness for C4 at exactly 200ms after the failing call. -/
theorem c4_admission_gate_witness :
    (1 / 5 : ℚ) ≤ 1 / 5
  ∧ (gateTryAcquire 5 5 (gateRun 5 5 (gateFull 5) [0, 0, 0, 0, 0, 0]).2
        (1 / 5)).1 = true :=
  ⟨le_refl _, c4_admission_gate.2 (1 / 5) (le_refl _)⟩

/-- C5: with the consumer present, a frame that fails to decode produces
exactly one `DeserializationError` envelope on the channel and the read
loop continues — the connection is not torn down and the following
well-formed frames decode and are delivered in order (the trailing
`WebSocketClosed` comes only from the end of the simulated stream). -/
theorem c5_decode_error_nonfatal :
    ∀ (env : StreamEnv) (g1 bad g2 m : String) (d1 d2 : WsTickerData),
      env.chanOpen = true →
      env.decode g1 = .ok d1 → env.decode bad = .error m →
      env.decode g2 = .ok d2 →
      handle_ticker_messages env [.text g1, .text bad, .text g2] =
        ⟨[.ok (d1.ticker24hOf env.ext), .err (.deserializationError m),
          .ok (d2.ticker24hOf env.ext)], 3, .error .webSocketClosed⟩ := by
  intro env g1 bad g2 m d1 d2 hopen h1 hbad h2
  simp [handle_ticker_messages, h1, hbad, h2, hopen,
    WsTickerData.to_ticker24h]

/-- Witness for C5 at the concrete three-frame stream good, bad, good. -/
theorem c5_witness :
    demoOpenEnv.chanOpen = true
  ∧ demoOpenEnv.decode "f1" = .ok { demoData with symbol := "f1" }
  ∧ demoOpenEnv.decode "bad" = .error "expected value"
  ∧ demoOpenEnv.decode "f2" = .ok { demoData with symbol := "f2" }
  ∧ handle_ticker_messages demoOpenEnv [.text "f1", .text "bad", .text "f2"] =
      ⟨[.ok (({ demoData with symbol := "f1" } : WsTickerData).ticker24hOf
            demoOpenEnv.ext),
        .err (.deserializationError "expected value"),
        .ok (({ demoData with symbol := "f2" } : WsTickerData).ticker24hOf
            demoOpenEnv.ext)],
       3, .error .webSocketClosed⟩ := by
  have h1 : demoOpenEnv.decode "f1" = .ok { demoData with symbol := "f1" } := by
    simp [demoOpenEnv, demoDecode]
  have hbad : demoOpenEnv.decode "bad" = .error "expected value" := by
    simp [demoOpenEnv, demoDecode]
  have h2 : demoOpenEnv.decode "f2" = .ok { demoData with symbol := "f2" } := by
    simp [demoOpenEnv, demoDecode]
  exact ⟨rfl, h1, hbad, h2,
    c5_decode_error_nonfatal demoOpenEnv "f1" "bad" "f2" "expected value"
      _ _ rfl h1 hbad h2⟩

/-- A syntactically valid payload whose numeric fields are not numbers. -/
def fabricatedInput : WsTickerData :=
  { event_type := "24hrTicker", symbol := "BTCUSDT"
    price_change := "abc", price_change_percent := "abc"
    weighted_avg_price := "abc", prev_close := "abc", last_price := "abc"
    bid_price := "abc", ask_price := "abc", open_price := "abc"
    high_price := "abc", low_price := "abc", volume := "abc"
    quote_volume := "abc"
    open_time := 0, close_time := 0
    first_trade_id := 1, last_trade_id := 2, trade_count := 3 }

/-- C7 counterexample: a payload whose numeric strings fail to parse is
not rejected — `to_ticker24h` returns a fabricated success whose numeric
fields are silently defaulted to 0 (`parse().unwrap_or(0.0)`). -/
theorem c7_counterexample :
    demoExt.parseF64 "abc" = none
  ∧ fabricatedInput.to_ticker24h demoExt =
      .ok { symbol := "BTCUSDT", price_change := 0, price_change_percent := 0,
            weighted_avg_price := 0, prev_close_price := 0, last_price := 0,
            bid_price := 0, ask_price := 0, open_price := 0, high_price := 0,
            low_price := 0, volume := 0, quote_volume := 0,
            open_time := 0, close_time := 0, first_id := 1, last_id := 2,
            count := 3 } := by
  constructor
  · decide
  · rfl

/-- C7 amended: the decoders are total — `to_ticker24h` and `to_trade`
always return `Ok` and never panic, and a frame that fails JSON decoding
yields a typed `DeserializationError` envelope while the loop continues —
but a numeric field that fails to parse is silently replaced by 0 inside
a success value rather than reported. -/
theorem c7_amended :
    (∀ (ext : Externals) (d : WsTickerData),
        d.to_ticker24h ext = .ok (d.ticker24hOf ext))
  ∧ (∀ (ext : Externals) (d : WsTradeData) (sym : String),
        ∃ t : Trade, d.to_trade ext sym = .ok t)
  ∧ (∀ (env : StreamEnv) (s m : String) (rest : List WsItem),
        env.chanOpen = true → env.decode s = .error m →
        handle_ticker_messages env (.text s :: rest) =
          ⟨.err (.deserializationError m) ::
             (handle_ticker_messages env rest).sent,
           (handle_ticker_messages env rest).framesRead + 1,
           (handle_ticker_messages env rest).result⟩)
  ∧ (∀ (ext : Externals) (d : WsTickerData),
        ext.parseF64 d.last_price = none →
        (d.ticker24hOf ext).last_price = 0) := by
  refine ⟨fun ext d => rfl, fun ext d sym => ⟨_, rfl⟩, ?_, ?_⟩
  · intro env s m rest hopen hd
    simp [handle_ticker_messages, hd, hopen]
  · intro ext d hp
    simp [WsTickerData.ticker24hOf, hp]

/-- Witness for C7 (amended) at a concrete malformed frame and a
concrete unparsable numeric field. -/
theorem c7_amended_witness :
    demoOpenEnv.chanOpen = true
  ∧ demoOpenEnv.decode "bad" = .error "expected value"
  ∧ handle_ticker_messages demoOpenEnv [.text "bad"] =
      ⟨[.err (.deserializationError "expected value")], 1,
        .error .webSocketClosed⟩
  ∧ demoExt.parseF64 fabricatedInput.last_price = none
  ∧ (fabricatedInput.ticker24hOf demoExt).last_price = 0 := by
  have hbad : demoOpenEnv.decode "bad" = .error "expected value" := by
    simp [demoOpenEnv, demoDecode]
  have hp : demoExt.parseF64 fabricatedInput.last_price = none := by decide
  exact ⟨rfl, hbad,
    c7_amended.2.2.1 demoOpenEnv "bad" "expected value" [] rfl hbad,
    hp,
    c7_amended.2.2.2 demoExt fabricatedInput hp⟩

/-- C1 counterexample: with the consumer gone, the first cycle detects
the failed push (one frame read, nothing delivered, handler returns Ok),
yet a second reconnect cycle still runs — the supervisor attempts a new
connection and reads a frame from it instead of terminating: the outer
loop of `ticker_stream_handler` has no exit on any path. -/
theorem c1_counterexample :
    demoClosedEnv.chanOpen = false
  ∧ (ticker_stream_handler demoClosedEnv
        [.conn [.text "f1"], .conn [.text "f2"]]).length = 2
  ∧ (ticker_stream_handler demoClosedEnv
        [.conn [.text "f1"], .conn [.text "f2"]]).get? 1 =
      some ⟨true, [], 1, 5⟩ := by
  refine ⟨rfl, rfl, ?_⟩
  simp [ticker_stream_handler, tickerCycle, handle_ticker_messages,
    demoClosedEnv, demoDecode, WsTickerData.to_ticker24h]

/-- C1 amended: when a push of a decoded event fails because the
consumer dropped the channel handle, the read loop stops within one
read/decode cycle and the transport is released (the handler returns at
once, having read exactly one frame and delivered nothing) — but the
supervisor does not transition to a terminal state: it sleeps the fixed
5 seconds and every subsequently scheduled cycle still runs a connect
attempt. -/
theorem c1_amended :
    ∀ (env : StreamEnv) (s : String) (d : WsTickerData) (rest : List WsItem),
      env.chanOpen = false → env.decode s = .ok d →
      (handle_ticker_messages env (.text s :: rest) = ⟨[], 1, .ok ()⟩
        ∧ (∀ cycles : List ConnOutcome,
            (ticker_stream_handler env cycles).length = cycles.length)
        ∧ (∀ cycles : List ConnOutcome, ∀ c ∈ ticker_stream_handler env cycles,
            c.connectAttempted = true ∧ c.sleepSecs = 5)) := by
  intro env s d rest hclosed hd
  refine ⟨?_, ?_, ?_⟩
  · simp [handle_ticker_messages, hd, hclosed, WsTickerData.to_ticker24h]
  · intro cycles
    simp [ticker_stream_handler]
  · intro cycles c hc
    simp only [ticker_stream_handler, List.mem_map] at hc
    obtain ⟨oc, _, rfl⟩ := hc
    cases oc with
    | connFail e => exact ⟨rfl, rfl⟩
    | conn frames =>
      cases hr : (handle_ticker_messages env frames).result <;>
        simp [tickerCycle, hr]

/-- Witness for C1 (amended) at a concrete closed-channel stream. -/
theorem c1_amended_witness :
    demoClosedEnv.chanOpen = false
  ∧ demoClosedEnv.decode "f1" = .ok { demoData with symbol := "f1" }
  ∧ handle_ticker_messages demoClosedEnv [.text "f1"] = ⟨[], 1, .ok ()⟩ := by
  have hd : demoClosedEnv.decode "f1" = .ok { demoData with symbol := "f1" } := by
    simp [demoClosedEnv, demoDecode]
  exact ⟨rfl, hd,
    (c1_amended demoClosedEnv "f1" { demoData with symbol := "f1" } [] rfl hd).1⟩

/-- The C2 scenario: a connection delivering 3 frames then a close
frame, and after reconnection a connection delivering 3 more frames. -/
def c2Cycles : List ConnOutcome :=
  [.conn [.text "f1", .text "f2", .text "f3", .close],
   .conn [.text "f4", .text "f5", .text "f6"]]

/-- C2 counterexample: in the 3-frames/close/reconnect/3-frames run the
consumer's channel receives 8 envelopes, not 6 — exactly 6 decoded
events, but an `Err(WebSocketClosed)` envelope intervenes between the
two segments (position 3), because the outer loop pushes the read loop's
terminal error onto the channel before reconnecting. -/
theorem c2_counterexample :
    (channelContents (ticker_stream_handler demoOpenEnv c2Cycles)).length = 8
  ∧ (channelContents (ticker_stream_handler demoOpenEnv c2Cycles)).get? 3 =
      some (.err .webSocketClosed)
  ∧ ((channelContents (ticker_stream_handler demoOpenEnv c2Cycles)).filter
        Envelope.isEvent).length = 6 := by
  refine ⟨?_, ?_, ?_⟩ <;> rfl

/-- C2 amended: the consumer receives exactly 6 decoded events, in wire
order with no duplicates, and the gap between the two segments is the
fixed 5-second reconnect delay — but a 7th and 8th envelope also arrive:
an `Err(WebSocketClosed)` after each segment (one for the close frame,
one for the end of the second stream), so error envelopes do intervene
between the segments. -/
theorem c2_amended :
    ∀ (env : StreamEnv) (f1 f2 f3 f4 f5 f6 : String)
      (d1 d2 d3 d4 d5 d6 : WsTickerData),
      env.chanOpen = true →
      env.decode f1 = .ok d1 → env.decode f2 = .ok d2 →
      env.decode f3 = .ok d3 → env.decode f4 = .ok d4 →
      env.decode f5 = .ok d5 → env.decode f6 = .ok d6 →
      (channelContents (ticker_stream_handler env
          [.conn [.text f1, .text f2, .text f3, .close],
           .conn [.text f4, .text f5, .text f6]]) =
        [.ok (d1.ticker24hOf env.ext), .ok (d2.ticker24hOf env.ext),
         .ok (d3.ticker24hOf env.ext), .err .webSocketClosed,
         .ok (d4.ticker24hOf env.ext), .ok (d5.ticker24hOf env.ext),
         .ok (d6.ticker24hOf env.ext), .err .webSocketClosed]
      ∧ (ticker_stream_handler env
          [.conn [.text f1, .text f2, .text f3, .close],
           .conn [.text f4, .text f5, .text f6]]).map CycleTrace.sleepSecs =
          [5, 5]) := by
  intro env f1 f2 f3 f4 f5 f6 d1 d2 d3 d4 d5 d6 hopen h1 h2 h3 h4 h5 h6
  constructor
  · simp [channelContents, ticker_stream_handler, tickerCycle,
      handle_ticker_messages, h1, h2, h3, h4, h5, h6, hopen,
      WsTickerData.to_ticker24h, sendIfOpen]
  · simp [ticker_stream_handler, tickerCycle, handle_ticker_messages,
      h1, h2, h3, h4, h5, h6, hopen, WsTickerData.to_ticker24h, sendIfOpen]

/-- Witness for C2 (amended) at the concrete demo subscription. -/
theorem c2_amended_witness :
    demoOpenEnv.chanOpen = true
  ∧ demoOpenEnv.decode "f1" = .ok { demoData with symbol := "f1" }
  ∧ channelContents (ticker_stream_handler demoOpenEnv c2Cycles) =
      [.ok (({ demoData with symbol := "f1" } : WsTickerData).ticker24hOf
          demoOpenEnv.ext),
       .ok (({ demoData with symbol := "f2" } : WsTickerData).ticker24hOf
          demoOpenEnv.ext),
       .ok (({ demoData with symbol := "f3" } : WsTickerData).ticker24hOf
          demoOpenEnv.ext),
       .err .webSocketClosed,
       .ok (({ demoData with symbol := "f4" } : WsTickerData).ticker24hOf
          demoOpenEnv.ext),
       .ok (({ demoData with symbol := "f5" } : WsTickerData).ticker24hOf
          demoOpenEnv.ext),
       .ok (({ demoData with symbol := "f6" } : WsTickerData).ticker24hOf
          demoOpenEnv.ext),
       .err .webSocketClosed]
  ∧ (ticker_stream_handler demoOpenEnv c2Cycles).map CycleTrace.sleepSecs =
      [5, 5] := by
  have hd : ∀ s : String, s ≠ "bad" →
      demoOpenEnv.decode s = .ok { demoData with symbol := s } := by
    intro s hs
    simp [demoOpenEnv, demoDecode, hs]
  have h := c2_amended demoOpenEnv "f1" "f2" "f3" "f4" "f5" "f6"
    { demoData with symbol := "f1" } { demoData with symbol := "f2" }
    { demoData with symbol := "f3" } { demoData with symbol := "f4" }
    { demoData with symbol := "f5" } { demoData with symbol := "f6" }
    rfl (hd "f1" (by decide)) (hd "f2" (by decide)) (hd "f3" (by decide))
    (hd "f4" (by decide)) (hd "f5" (by decide)) (hd "f6" (by decide))
  exact ⟨rfl, hd "f1" (by decide), h.1, h.2⟩
